import Mathlib

/-!
Verification of the wandb sweep-scheduler subsystem: the scheduler control
loop and its terminal-state rules, run-state reconciliation against the
remote backend, the stop-run and run-cap contracts of launch-queue
submission, the agent-heartbeat command protocol, the backend file-upload
retry discipline, and the optuna-driven strategy.

The optuna strategy (wandb/sdk/launch/sweeps/scheduler_optuna.py) is
embedded from its source.  The base scheduler (scheduler.py), the
heartbeat sweep scheduler (scheduler_sweep.py) and the upload primitive
(internal api upload_file) are not among the provided sources — only
their tests and callers are — so those parts are modelled from the
specification, as marked on each definition.
-/

/-- Modelled from the spec: the local state of one sweep trial
(`RunState` in the missing scheduler.py, imported by scheduler_optuna.py
and the tests): one of ALIVE, DEAD, UNKNOWN. -/
inductive RunState where
  | ALIVE
  | DEAD
  | UNKNOWN
deriving DecidableEq, Repr

/-- Modelled from the spec: scheduler lifecycle state
(`SchedulerState` in the missing scheduler.py):
PENDING and RUNNING are the only non-terminal states. -/
inductive SchedulerState where
  | PENDING
  | RUNNING
  | COMPLETED
  | FAILED
  | STOPPED
  | CANCELLED
deriving DecidableEq, Repr

/-- Modelled from the spec: COMPLETED, FAILED, STOPPED and CANCELLED are
the terminal scheduler states. -/
def isTerminal : SchedulerState → Bool
  | SchedulerState.COMPLETED => true
  | SchedulerState.FAILED => true
  | SchedulerState.STOPPED => true
  | SchedulerState.CANCELLED => true
  | _ => false

/-- Modelled from the spec: `is_alive` holds exactly on the non-terminal
states PENDING and RUNNING. -/
def isAlive : SchedulerState → Bool
  | SchedulerState.PENDING => true
  | SchedulerState.RUNNING => true
  | _ => false

/-- Modelled from the spec: one logical trial (`SweepRun` in the missing
scheduler.py, constructed by scheduler_optuna.py and the tests).
`queued_run` records whether a launch-queue submission handle is present;
hyperparameter values are abstracted to integers. -/
structure SweepRun where
  id : String
  state : RunState
  worker_id : Nat := 0
  args : List (String × Int) := []
  queued_run : Bool := false
deriving DecidableEq, Repr

/-- Modelled from the spec: the observable outcome of one iteration of
the `start()` loop — the iteration either completes normally (leaving the
scheduler in `next`), raises a cancellation-kind exception (external
interrupt), or raises any other exception. -/
inductive IterOutcome where
  | ok (next : SchedulerState)
  | cancel
  | err
deriving DecidableEq, Repr

/-- Modelled from the spec: the `while state == RUNNING` loop of
`start()` in the missing scheduler.py, driven by a finite script of
iteration outcomes.  Returns the scheduler state at loop exit and
whether an exception is re-raised to the caller.  A cancellation-kind
exception sets STOPPED and is not propagated; any other exception sets
FAILED and is re-raised; an exhausted script is a bare loop exit. -/
def runIterations : SchedulerState → List IterOutcome → SchedulerState × Bool
  | s, [] => (s, false)
  | s, o :: rest =>
    if s = SchedulerState.RUNNING then
      match o with
      | IterOutcome.ok next => runIterations next rest
      | IterOutcome.cancel => (SchedulerState.STOPPED, false)
      | IterOutcome.err => (SchedulerState.FAILED, true)
    else (s, false)

/-- Modelled from the spec: what a caller of `start()` observes — the
final scheduler state, whether an exception propagated, and whether
cleanup/teardown ran. -/
structure StartResult where
  state : SchedulerState
  raised : Bool
  cleanupRan : Bool
deriving DecidableEq, Repr

/-- Modelled from the spec: `start()` of the missing scheduler.py.
A non-PENDING initial state short-circuits to FAILED; an unresolved
executable fails; otherwise the loop runs from RUNNING and, on loop
exit, a state that is not terminal is forced to FAILED. -/
def schedulerStart (initial : SchedulerState) (execOk : Bool)
    (outs : List IterOutcome) : StartResult :=
  if initial = SchedulerState.PENDING then
    if execOk then
      let r := runIterations SchedulerState.RUNNING outs
      ⟨if isTerminal r.1 then r.1 else SchedulerState.FAILED, r.2, true⟩
    else ⟨SchedulerState.FAILED, false, false⟩
  else ⟨SchedulerState.FAILED, false, false⟩

/-- Modelled from the spec: the remote run statuses returned by the
backend `getRunState` query that §4.2 maps to local run states. -/
inductive RemoteStatus where
  | finished
  | crashed
  | failed
  | killed
  | preempted
  | running
  | pending
  | preempting
deriving DecidableEq, Repr

/-- Modelled from the spec: the remote-status → local-state mapping of
the Run-State Reconciler (§4.2). -/
def remoteToLocal : RemoteStatus → RunState
  | RemoteStatus.finished => RunState.DEAD
  | RemoteStatus.crashed => RunState.DEAD
  | RemoteStatus.failed => RunState.DEAD
  | RemoteStatus.killed => RunState.DEAD
  | RemoteStatus.preempted => RunState.DEAD
  | RemoteStatus.running => RunState.ALIVE
  | RemoteStatus.pending => RunState.ALIVE
  | RemoteStatus.preempting => RunState.ALIVE

/-- Modelled from the spec: one run's reconciliation step.  DEAD runs
are not queried; for the rest the backend query either returns a remote
status (mapped through `remoteToLocal`) or raises a communication error,
which yields UNKNOWN. -/
def reconcileRun (q : String → Except Unit RemoteStatus) (r : SweepRun) : SweepRun :=
  if r.state = RunState.DEAD then r
  else
    match q r.id with
    | Except.ok st => { r with state := remoteToLocal st }
    | Except.error _ => { r with state := RunState.UNKNOWN }

/-- Modelled from the spec: `_update_run_states` of the missing
scheduler.py — reconcile every tracked run, then remove exactly the runs
that resolved to DEAD from the tracked-run set. -/
def updateRunStates (q : String → Except Unit RemoteStatus)
    (runs : List SweepRun) : List SweepRun :=
  (runs.map (reconcileRun q)).filter (fun r => decide ¬(r.state = RunState.DEAD))

/-- Modelled from the spec: the observable result of `_stop_run` — the
returned boolean, the updated tracked-run set, and the backend
termination requests issued. -/
structure StopResult where
  stopped : Bool
  runs : List SweepRun
  terminationRequests : List String
deriving DecidableEq, Repr

/-- Modelled from the spec: `_stop_run(id)` of the missing scheduler.py.
An unknown id returns false with no side effect; a known run without a
submission handle returns false; a known run with a handle issues a
backend termination request, marks the run DEAD, and returns true. -/
def stop_run (runs : List SweepRun) (rid : String) : StopResult :=
  match runs.find? (fun r => r.id == rid) with
  | none => ⟨false, runs, []⟩
  | some r =>
    if r.queued_run then
      ⟨true,
       runs.map (fun x => if x.id = rid then { x with state := RunState.DEAD } else x),
       [rid]⟩
    else ⟨false, runs, []⟩

/-- Modelled from the spec: the run-cap bookkeeping of the missing
scheduler.py — `_num_runs_launched`, the optional configured run cap,
and the list of successful launch-queue submissions. -/
structure CapState where
  numRunsLaunched : Nat
  runCap : Option Nat
  submissions : List String
deriving DecidableEq, Repr

/-- Modelled from the spec: `at_runcap` — true iff a run cap is
configured and `numRunsLaunched` has reached it. -/
def atRunCap (s : CapState) : Bool :=
  match s.runCap with
  | some cap => decide (cap ≤ s.numRunsLaunched)
  | none => false

/-- Modelled from the spec: one launch signal — submit to the launch
queue unless already at the run cap; a successful submission increments
`numRunsLaunched` exactly once. -/
def trySubmit (s : CapState) (rid : String) : CapState :=
  if atRunCap s then s
  else { s with
    numRunsLaunched := s.numRunsLaunched + 1,
    submissions := s.submissions ++ [rid] }

/-- Modelled from the spec: a sequence of launch signals processed in
order through `trySubmit`. -/
def submitSignals (s : CapState) (ids : List String) : CapState :=
  ids.foldl trySubmit s

/-- Modelled from the spec: one decoded agent-heartbeat command
(§4.4/§6): a `type` string with optional `run_id` and `run_cap`
fields. -/
structure Command where
  type : String
  run_id : Option String := none
  run_cap : Option Nat := none
deriving DecidableEq, Repr

/-- Modelled from the spec: the scheduler-side state the heartbeat
strategy acts on — the scheduler lifecycle state plus the run-cap
bookkeeping. -/
structure HBState where
  schedState : SchedulerState
  cap : CapState
deriving DecidableEq, Repr

/-- Modelled from the spec: the outcome of heartbeat command
processing — either an updated state or a fatal `SchedulerError`
message. -/
inductive HBOutcome where
  | ok (s : HBState)
  | fail (msg : String)
deriving DecidableEq, Repr

/-- Modelled from the spec: a `run_cap` override carried by a stop
command replaces the configured run cap when present. -/
def applyRunCapOverride (s : HBState) (oc : Option Nat) : HBState :=
  match oc with
  | some cap => { s with cap := { s.cap with runCap := some cap } }
  | none => s

/-- Modelled from the spec: dispatch of one heartbeat command in the
heartbeat-driven strategy of the missing scheduler_sweep.py.  A "run"
command must carry a run id (else a fatal error naming the missing run
id); a well-formed "run" registers and submits via the run-cap-guarded
submission; "stop" applies any run-cap override and transitions the
scheduler to STOPPED; any other type is a fatal error naming the
unrecognized command type. -/
def processCommand (s : HBState) (c : Command) : HBOutcome :=
  if c.type = "run" then
    match c.run_id with
    | none => HBOutcome.fail ("No run id in agent heartbeat: " ++ c.type)
    | some rid => HBOutcome.ok { s with cap := trySubmit s.cap rid }
  else if c.type = "stop" then
    HBOutcome.ok
      { applyRunCapOverride s c.run_cap with schedState := SchedulerState.STOPPED }
  else
    HBOutcome.fail ("unknown command type: " ++ c.type)

/-- Modelled from the spec: the ordered command list of one heartbeat
poll, processed while the scheduler is RUNNING; a fatal error aborts
processing. -/
def processCommands : HBState → List Command → HBOutcome
  | s, [] => HBOutcome.ok s
  | s, c :: rest =>
    if s.schedState = SchedulerState.RUNNING then
      match processCommand s c with
      | HBOutcome.fail m => HBOutcome.fail m
      | HBOutcome.ok s2 => processCommands s2 rest
    else HBOutcome.ok s

/-- Modelled from the spec: one scheduler iteration polls the heartbeat
once per worker slot, in worker order, while the scheduler is
RUNNING. -/
def heartbeatWorkers : HBState → List (List Command) → HBOutcome
  | s, [] => HBOutcome.ok s
  | s, cmds :: ws =>
    match processCommands s cmds with
    | HBOutcome.fail m => HBOutcome.fail m
    | HBOutcome.ok s2 => heartbeatWorkers s2 ws

/-- Modelled from the spec: how a heartbeat-processing outcome is seen
by the control loop — a fatal `SchedulerError` is an ordinary exception
raised during the iteration, otherwise the iteration completes in the
resulting scheduler state. -/
def hbIterOutcome : HBOutcome → IterOutcome
  | HBOutcome.ok s => IterOutcome.ok s.schedState
  | HBOutcome.fail _ => IterOutcome.err

/-- Modelled from the spec: what one attempt of the backend file-upload
primitive encounters: success, an HTTP error status, a network error,
or a timeout. -/
inductive UploadOutcome where
  | success
  | status (code : Nat)
  | netError
  | timeout
deriving DecidableEq, Repr

/-- Modelled from the spec: how an upload failure surfaces — a transient
(retryable) error, or a direct HTTP status error. -/
inductive UploadFailure where
  | transient
  | httpStatus (code : Nat)
deriving DecidableEq, Repr

/-- Modelled from the spec: failure classification of one upload
attempt.  Network errors, timeouts and 5xx responses are transient;
other error statuses surface as status errors. -/
def classifyFailure : UploadOutcome → Option UploadFailure
  | UploadOutcome.success => none
  | UploadOutcome.netError => some UploadFailure.transient
  | UploadOutcome.timeout => some UploadFailure.transient
  | UploadOutcome.status c =>
    if 500 ≤ c then some UploadFailure.transient
    else some (UploadFailure.httpStatus c)

/-- Modelled from the spec: the retry loop of the upload primitive over
a script of per-attempt outcomes, carrying the file read position at
which each attempt starts.  A transient failure rewinds the read
position to 0 and retries on the rest of the script; a non-transient
failure surfaces directly; an exhausted script surfaces as transient.
Returns the overall result and the starting read position of every
attempt made. -/
def uploadAttempts : Nat → List UploadOutcome → (Except UploadFailure Unit) × List Nat
  | _, [] => (Except.error UploadFailure.transient, [])
  | pos, o :: rest =>
    match classifyFailure o with
    | none => (Except.ok (), [pos])
    | some UploadFailure.transient =>
      ((uploadAttempts 0 rest).1, pos :: (uploadAttempts 0 rest).2)
    | some f => (Except.error f, [pos])

/-- Modelled from the spec: `upload_file` of the missing internal api —
the retry loop started at read position 0. -/
def upload_file (script : List UploadOutcome) : (Except UploadFailure Unit) × List Nat :=
  uploadAttempts 0 script

/-- An interaction with the optuna study recorded by `_poll_run` of
scheduler_optuna.py: a metric report at a step, telling the study the
trial was pruned, or telling it the trial completed with a final
value. -/
inductive StudyEvent where
  | report (value : Int) (step : Nat)
  | tellPruned
  | tellComplete (value : Option Int)
deriving DecidableEq, Repr

/-- The per-trial bookkeeping of `_OptunaRun` in scheduler_optuna.py:
the number of metrics observed so far (`num_metrics`) and the trial's
cached intermediate values, step ↦ value. -/
structure OptunaRunModel where
  num_metrics : Nat
  intermediate_values : List (Nat × Int)
deriving DecidableEq, Repr

/-- The report/prune loop of `_poll_run` in scheduler_optuna.py over the
metrics not yet observed: each metric at the next step is reported
unless its step is already among the intermediate values, then the
pruner is consulted (`sp`, abstracting `trial.should_prune()` as a
function of the intermediate values); a prune tells the study PRUNED and
stops.  Returns the emitted study events, the updated intermediate
values, and whether the trial was pruned. -/
def pollLoop (sp : List (Nat × Int) → Bool) :
    List Int → List (Nat × Int) → Nat → List StudyEvent × List (Nat × Int) × Bool
  | [], iv, _ => ([], iv, false)
  | m :: rest, iv, step =>
    let fresh := (iv.lookup step).isNone
    let iv1 := if fresh then iv ++ [(step, m)] else iv
    let evs1 : List StudyEvent := if fresh then [StudyEvent.report m step] else []
    if sp iv1 then (evs1 ++ [StudyEvent.tellPruned], iv1, true)
    else
      let r := pollLoop sp rest iv1 (step + 1)
      (evs1 ++ r.1, r.2.1, r.2.2)

/-- `_poll_run` of scheduler_optuna.py: run the report/prune loop over
the metrics beyond `num_metrics`; if pruned, the trial is finished; else
a non-empty metric list refreshes `num_metrics` and the trial is not
finished; an empty metric list with no metrics ever observed is not
finished; an empty metric list after at least one observed metric tells
the study COMPLETE with the intermediate value recorded at the last
observed step and the trial is finished. -/
def pollRun (sp : List (Nat × Int) → Bool) (metrics : List Int)
    (orun : OptunaRunModel) : List StudyEvent × OptunaRunModel × Bool :=
  let r := pollLoop sp (metrics.drop orun.num_metrics) orun.intermediate_values
    orun.num_metrics
  if r.2.2 then (r.1, ⟨orun.num_metrics, r.2.1⟩, true)
  else if metrics.length ≠ 0 then (r.1, ⟨metrics.length, r.2.1⟩, false)
  else if orun.num_metrics = 0 then (r.1, ⟨orun.num_metrics, r.2.1⟩, false)
  else
    (r.1 ++ [StudyEvent.tellComplete (r.2.1.lookup (orun.num_metrics - 1))],
     ⟨orun.num_metrics, r.2.1⟩, true)

/-- A launch-queue submission built by `_run` of scheduler_optuna.py:
the run id and the run-config overrides derived from the run's args. -/
structure LaunchRequest where
  run_id : String
  run_config : List (String × Int)
deriving DecidableEq, Repr

/-- The post-dequeue dispatch of `_run` in scheduler_optuna.py: a run
dequeued from the internal job queue in state DEAD or UNKNOWN is
ignored (no command built, no launch-queue call); otherwise a launch
request is submitted for it. -/
def optunaRunDispatch (srun : SweepRun) : Option LaunchRequest :=
  if srun.state = RunState.DEAD ∨ srun.state = RunState.UNKNOWN then none
  else some ⟨srun.id, srun.args⟩

/-- Concrete backend query used by witnesses: run1 finished, run2
running, anything else a communication error. -/
def exampleQuery : String → Except Unit RemoteStatus :=
  fun rid =>
    if rid = "run1" then Except.ok RemoteStatus.finished
    else if rid = "run2" then Except.ok RemoteStatus.running
    else Except.error ()

/-- Concrete tracked-run set used by witnesses. -/
def exampleRuns : List SweepRun :=
  [⟨"run1", RunState.ALIVE, 0, [], false⟩,
   ⟨"run2", RunState.ALIVE, 1, [], false⟩,
   ⟨"foo_run_1", RunState.ALIVE, 2, [], false⟩]

/-! ### Helper lemmas -/

theorem runIterations_past_ok_lead (rest : List IterOutcome) :
    ∀ pre : List IterOutcome,
      (∀ o ∈ pre, o = IterOutcome.ok SchedulerState.RUNNING) →
      runIterations SchedulerState.RUNNING (pre ++ rest) =
        runIterations SchedulerState.RUNNING rest := by
  intro pre
  induction pre with
  | nil => intro _; rfl
  | cons o pre ih =>
    intro h
    have ho := h o (List.mem_cons_self o pre)
    subst ho
    simp only [List.cons_append, runIterations, if_pos rfl]
    exact ih (fun o hmem => h o (List.mem_cons_of_mem _ hmem))

theorem reconcileRun_id (q : String → Except Unit RemoteStatus) (r : SweepRun) :
    (reconcileRun q r).id = r.id := by
  unfold reconcileRun
  split
  · rfl
  · cases q r.id <;> rfl

theorem reconcileRun_alive_ok (q : String → Except Unit RemoteStatus)
    (r : SweepRun) (st : RemoteStatus)
    (halive : r.state = RunState.ALIVE) (hq : q r.id = Except.ok st) :
    reconcileRun q r = { r with state := remoteToLocal st } := by
  unfold reconcileRun
  rw [halive, hq]
  simp

theorem reconcileRun_alive_error (q : String → Except Unit RemoteStatus)
    (r : SweepRun)
    (halive : r.state = RunState.ALIVE) (hq : q r.id = Except.error ()) :
    reconcileRun q r = { r with state := RunState.UNKNOWN } := by
  unfold reconcileRun
  rw [halive, hq]
  simp

/-! ### Claim theorems -/

/-- Claim C1: in every execution of the scheduler start() loop, a
cancellation-kind exception during an iteration sets the state to
STOPPED and start() returns without propagating; any other exception
sets the state to FAILED, runs cleanup, and is re-raised; and a loop
exit without a terminal state forces the state to FAILED. -/
theorem scheduler_start_exception_and_exit_paths
    (pre post : List IterOutcome)
    (hpre : ∀ o ∈ pre, o = IterOutcome.ok SchedulerState.RUNNING) :
    schedulerStart SchedulerState.PENDING true (pre ++ IterOutcome.cancel :: post) =
      ⟨SchedulerState.STOPPED, false, true⟩ ∧
    schedulerStart SchedulerState.PENDING true (pre ++ IterOutcome.err :: post) =
      ⟨SchedulerState.FAILED, true, true⟩ ∧
    (∀ outs : List IterOutcome,
      isTerminal (runIterations SchedulerState.RUNNING outs).1 = false →
      schedulerStart SchedulerState.PENDING true outs =
        ⟨SchedulerState.FAILED, (runIterations SchedulerState.RUNNING outs).2, true⟩) := by
  refine ⟨?_, ?_, ?_⟩
  · unfold schedulerStart
    rw [runIterations_past_ok_lead _ pre hpre]
    rfl
  · unfold schedulerStart
    rw [runIterations_past_ok_lead _ pre hpre]
    rfl
  · intro outs h
    unfold schedulerStart
    simp only [if_pos rfl, if_pos trivial, h]
    rfl

/-- Witness for C1 at a concrete script: one normal iteration followed
by a cancellation interrupt yields STOPPED with nothing propagated. -/
theorem scheduler_start_exception_and_exit_paths_witness :
    schedulerStart SchedulerState.PENDING true
        [IterOutcome.ok SchedulerState.RUNNING, IterOutcome.cancel] =
      ⟨SchedulerState.STOPPED, false, true⟩ :=
  (scheduler_start_exception_and_exit_paths
    [IterOutcome.ok SchedulerState.RUNNING] []
    (by intro o ho; simpa using ho)).1

/-- Claim C2: for every run tracked as ALIVE, a remote status among
finished/crashed/failed/killed/preempted maps to local DEAD and the run
is removed from the tracked-run set, while a remote status among
running/pending/preempting maps to local ALIVE and the run remains
tracked. -/
theorem update_run_states_remote_status_mapping
    (q : String → Except Unit RemoteStatus) (runs : List SweepRun)
    (r : SweepRun) (st : RemoteStatus)
    (hmem : r ∈ runs) (hnodup : (runs.map SweepRun.id).Nodup)
    (halive : r.state = RunState.ALIVE) (hq : q r.id = Except.ok st) :
    (st ∈ [RemoteStatus.finished, RemoteStatus.crashed, RemoteStatus.failed,
        RemoteStatus.killed, RemoteStatus.preempted] →
      remoteToLocal st = RunState.DEAD ∧
      ∀ x ∈ updateRunStates q runs, x.id ≠ r.id) ∧
    (st ∈ [RemoteStatus.running, RemoteStatus.pending, RemoteStatus.preempting] →
      remoteToLocal st = RunState.ALIVE ∧
      ∃ x ∈ updateRunStates q runs, x.id = r.id ∧ x.state = RunState.ALIVE) := by
  constructor
  · intro hdead
    have hloc : remoteToLocal st = RunState.DEAD := by
      simp only [List.mem_cons, List.not_mem_nil, or_false] at hdead
      rcases hdead with h | h | h | h | h <;> subst h <;> rfl
    refine ⟨hloc, ?_⟩
    intro x hx hxid
    unfold updateRunStates at hx
    rw [List.mem_filter] at hx
    obtain ⟨hxmap, hxstate⟩ := hx
    rw [List.mem_map] at hxmap
    obtain ⟨y, hy, hxy⟩ := hxmap
    have hid : y.id = r.id := by
      rw [← hxid, ← hxy, reconcileRun_id]
    have hyr : y = r := List.inj_on_of_nodup_map hnodup hy hmem hid
    subst hyr
    rw [reconcileRun_alive_ok q y st halive hq] at hxy
    rw [← hxy] at hxstate
    simp [hloc] at hxstate
  · intro halv
    have hloc : remoteToLocal st = RunState.ALIVE := by
      simp only [List.mem_cons, List.not_mem_nil, or_false] at halv
      rcases halv with h | h | h <;> subst h <;> rfl
    refine ⟨hloc, reconcileRun q r, ?_, reconcileRun_id q r, ?_⟩
    · unfold updateRunStates
      rw [List.mem_filter]
      refine ⟨List.mem_map_of_mem _ hmem, ?_⟩
      rw [reconcileRun_alive_ok q r st halive hq]
      simp [hloc]
    · rw [reconcileRun_alive_ok q r st halive hq]
      simpa using hloc

/-- Witness for C2 at the concrete query and run set: run1 (remote
status finished) maps to DEAD and is removed; run2 (remote status
running) stays ALIVE and remains tracked. -/
theorem update_run_states_remote_status_mapping_witness :
    (remoteToLocal RemoteStatus.finished = RunState.DEAD ∧
      ∀ x ∈ updateRunStates exampleQuery exampleRuns, x.id ≠ "run1") ∧
    (remoteToLocal RemoteStatus.running = RunState.ALIVE ∧
      ∃ x ∈ updateRunStates exampleQuery exampleRuns,
        x.id = "run2" ∧ x.state = RunState.ALIVE) :=
  ⟨(update_run_states_remote_status_mapping exampleQuery exampleRuns
      ⟨"run1", RunState.ALIVE, 0, [], false⟩ RemoteStatus.finished
      (by decide) (by decide) rfl rfl).1 (by decide),
   (update_run_states_remote_status_mapping exampleQuery exampleRuns
      ⟨"run2", RunState.ALIVE, 1, [], false⟩ RemoteStatus.running
      (by decide) (by decide) rfl rfl).2 (by decide)⟩

/-- Claim C3: for every run tracked as ALIVE whose remote status query
raises a communication error during reconciliation, the run becomes
UNKNOWN and is not removed from the tracked-run set; this holds for all
such runs of the same reconciliation pass at once. -/
theorem update_run_states_comm_error_unknown
    (q : String → Except Unit RemoteStatus) (runs : List SweepRun) :
    ∀ r ∈ runs, r.state = RunState.ALIVE → q r.id = Except.error () →
      ∃ x ∈ updateRunStates q runs, x.id = r.id ∧ x.state = RunState.UNKNOWN := by
  intro r hmem halive hq
  refine ⟨reconcileRun q r, ?_, reconcileRun_id q r, ?_⟩
  · unfold updateRunStates
    rw [List.mem_filter]
    refine ⟨List.mem_map_of_mem _ hmem, ?_⟩
    rw [reconcileRun_alive_error q r halive hq]
    simp
  · rw [reconcileRun_alive_error q r halive hq]

/-- Witness for C3: in the concrete run set, foo_run_1 hits the
communication error, becomes UNKNOWN, and remains tracked. -/
theorem update_run_states_comm_error_unknown_witness :
    ∃ x ∈ updateRunStates exampleQuery exampleRuns,
      x.id = "foo_run_1" ∧ x.state = RunState.UNKNOWN :=
  update_run_states_comm_error_unknown exampleQuery exampleRuns
    ⟨"foo_run_1", RunState.ALIVE, 2, [], false⟩ (by decide) rfl rfl

/-- Claim C4: stopRun on an unknown id returns false with no side
effect; on a tracked run without a submission handle it returns false;
on a tracked run with a handle it requests backend termination, sets the
run DEAD, and returns true. -/
theorem stop_run_contract (runs : List SweepRun) (rid : String) :
    (runs.find? (fun r => r.id == rid) = none →
      stop_run runs rid = ⟨false, runs, []⟩) ∧
    (∀ r : SweepRun, runs.find? (fun r => r.id == rid) = some r →
      r.queued_run = false → stop_run runs rid = ⟨false, runs, []⟩) ∧
    (∀ r : SweepRun, runs.find? (fun r => r.id == rid) = some r →
      r.queued_run = true →
      (stop_run runs rid).stopped = true ∧
      (stop_run runs rid).terminationRequests = [rid] ∧
      (∀ x ∈ (stop_run runs rid).runs, x.id = rid → x.state = RunState.DEAD)) := by
  refine ⟨?_, ?_, ?_⟩
  · intro hnone
    unfold stop_run
    rw [hnone]
  · intro r hfind hnoq
    unfold stop_run
    rw [hfind]
    simp [hnoq]
  · intro r hfind hq
    have hit : stop_run runs rid =
        ⟨true,
         runs.map (fun x => if x.id = rid then { x with state := RunState.DEAD } else x),
         [rid]⟩ := by
      unfold stop_run
      rw [hfind]
      simp [hq]
    rw [hit]
    refine ⟨rfl, rfl, ?_⟩
    intro x hx hxid
    rw [List.mem_map] at hx
    obtain ⟨y, hy, hxy⟩ := hx
    by_cases h : y.id = rid
    · rw [← hxy]
      simp [h]
    · rw [← hxy] at hxid
      simp [h] at hxid

/-- Concrete tracked-run set mirroring the stop-run test: one run
without a submission handle, one with a handle. -/
def exampleStopRuns : List SweepRun :=
  [⟨"existing-run-no-queued", RunState.ALIVE, 0, [], false⟩,
   ⟨"existing-run", RunState.ALIVE, 2, [], true⟩]

/-- Witness for C4: stopping a nonexistent run returns false and leaves
the set untouched; a run without a handle returns false; a run with a
handle is terminated, marked DEAD, and true is returned. -/
theorem stop_run_contract_witness :
    stop_run exampleStopRuns "nonexistent-run" = ⟨false, exampleStopRuns, []⟩ ∧
    stop_run exampleStopRuns "existing-run-no-queued" =
      ⟨false, exampleStopRuns, []⟩ ∧
    ((stop_run exampleStopRuns "existing-run").stopped = true ∧
     (stop_run exampleStopRuns "existing-run").terminationRequests =
       ["existing-run"] ∧
     (∀ x ∈ (stop_run exampleStopRuns "existing-run").runs,
       x.id = "existing-run" → x.state = RunState.DEAD)) :=
  ⟨(stop_run_contract exampleStopRuns "nonexistent-run").1 (by decide),
   (stop_run_contract exampleStopRuns "existing-run-no-queued").2.1
     ⟨"existing-run-no-queued", RunState.ALIVE, 0, [], false⟩ (by decide) rfl,
   (stop_run_contract exampleStopRuns "existing-run").2.2
     ⟨"existing-run", RunState.ALIVE, 2, [], true⟩ (by decide) rfl⟩

/-- Claim C5: numRunsLaunched grows exactly by the number of successful
submissions; atRunCap holds iff numRunsLaunched has reached the
configured cap; once at cap a launch signal changes nothing; and with
runCap = 2 and three launch signals exactly two submissions occur with
numRunsLaunched = 2 and atRunCap true. -/
theorem run_cap_contract :
    (∀ (s : CapState) (ids : List String),
      (submitSignals s ids).numRunsLaunched + s.submissions.length =
        s.numRunsLaunched + (submitSignals s ids).submissions.length) ∧
    (∀ (s : CapState) (cap : Nat), s.runCap = some cap →
      (atRunCap s = true ↔ cap ≤ s.numRunsLaunched)) ∧
    (∀ (s : CapState) (rid : String), atRunCap s = true → trySubmit s rid = s) ∧
    (submitSignals ⟨0, some 2, []⟩ ["r1", "r2", "r3"] =
      ⟨2, some 2, ["r1", "r2"]⟩ ∧
     atRunCap (submitSignals ⟨0, some 2, []⟩ ["r1", "r2", "r3"]) = true) := by
  have hcap : ∀ (s : CapState) (rid : String), atRunCap s = true → trySubmit s rid = s := by
    intro s rid h
    unfold trySubmit
    rw [if_pos h]
  refine ⟨?_, ?_, hcap, by decide, by decide⟩
  · intro s ids
    induction ids generalizing s with
    | nil => rfl
    | cons rid ids ih =>
      have hstep : submitSignals s (rid :: ids) = submitSignals (trySubmit s rid) ids := rfl
      rw [hstep]
      by_cases h : atRunCap s = true
      · rw [hcap s rid h]
        exact ih s
      · have ht : trySubmit s rid = { s with
            numRunsLaunched := s.numRunsLaunched + 1,
            submissions := s.submissions ++ [rid] } := by
          unfold trySubmit
          rw [if_neg h]
        rw [ht]
        have h2 := ih { s with
          numRunsLaunched := s.numRunsLaunched + 1,
          submissions := s.submissions ++ [rid] }
        simp only [List.length_append, List.length_singleton] at h2 ⊢
        omega
  · intro s cap hcap2
    unfold atRunCap
    rw [hcap2]
    simp

/-- Witness for C5: a state already at its cap absorbs a further launch
signal, and atRunCap is equivalent to having reached the cap. -/
theorem run_cap_contract_witness :
    trySubmit ⟨2, some 2, ["r1", "r2"]⟩ "r3" = ⟨2, some 2, ["r1", "r2"]⟩ ∧
    (atRunCap ⟨2, some 2, ["r1", "r2"]⟩ = true ↔ 2 ≤ 2) :=
  ⟨run_cap_contract.2.2.1 ⟨2, some 2, ["r1", "r2"]⟩ "r3" (by decide),
   run_cap_contract.2.1 ⟨2, some 2, ["r1", "r2"]⟩ 2 rfl⟩

/-! ### Heartbeat protocol lemmas -/

theorem trySubmit_runCap (s : CapState) (rid : String) :
    (trySubmit s rid).runCap = s.runCap := by
  unfold trySubmit
  split <;> rfl

theorem processCommands_not_running (s : HBState)
    (h : ¬ s.schedState = SchedulerState.RUNNING) :
    ∀ cmds : List Command, processCommands s cmds = HBOutcome.ok s := by
  intro cmds
  cases cmds with
  | nil => rfl
  | cons c rest =>
    unfold processCommands
    rw [if_neg h]

theorem heartbeatWorkers_not_running (s : HBState)
    (h : ¬ s.schedState = SchedulerState.RUNNING) :
    ∀ ws : List (List Command), heartbeatWorkers s ws = HBOutcome.ok s := by
  intro ws
  induction ws with
  | nil => rfl
  | cons cmds ws ih =>
    unfold heartbeatWorkers
    rw [processCommands_not_running s h cmds]
    exact ih

theorem processCommand_stop (s : HBState) (c : Command)
    (hstop : c.type = "stop") :
    processCommand s c =
      HBOutcome.ok
        { applyRunCapOverride s c.run_cap with schedState := SchedulerState.STOPPED } := by
  unfold processCommand
  rw [hstop]
  rw [if_neg (by decide), if_pos rfl]

theorem processCommand_run (s : HBState) (c : Command) (rid : String)
    (hrun : c.type = "run") (hid : c.run_id = some rid) :
    processCommand s c = HBOutcome.ok { s with cap := trySubmit s.cap rid } := by
  unfold processCommand
  rw [hrun, if_pos rfl, hid]

theorem processCommands_reaches_stop (stopc : Command) (post : List Command)
    (hstop : stopc.type = "stop") :
    ∀ (pre : List Command) (s : HBState),
      s.schedState = SchedulerState.RUNNING →
      (∀ c ∈ pre, c.type = "run" ∧ c.run_id ≠ none) →
      ∃ s2 : HBState,
        processCommands s (pre ++ stopc :: post) = HBOutcome.ok s2 ∧
        s2.schedState = SchedulerState.STOPPED ∧
        s2.cap.runCap = (match stopc.run_cap with
          | some cap => some cap
          | none => s.cap.runCap) := by
  intro pre
  induction pre with
  | nil =>
    intro s hs _
    refine ⟨{ applyRunCapOverride s stopc.run_cap with
        schedState := SchedulerState.STOPPED }, ?_, rfl, ?_⟩
    · show processCommands s (stopc :: post) = _
      unfold processCommands
      rw [if_pos hs, processCommand_stop s stopc hstop]
      exact processCommands_not_running _ (by simp) post
    · cases stopc.run_cap <;> rfl
  | cons c pre ih =>
    intro s hs hpre
    obtain ⟨hct, hcid⟩ := hpre c (List.mem_cons_self c pre)
    obtain ⟨rid, hrid⟩ := Option.ne_none_iff_exists'.mp hcid
    have hpre2 : ∀ x ∈ pre, x.type = "run" ∧ x.run_id ≠ none :=
      fun x hx => hpre x (List.mem_cons_of_mem _ hx)
    obtain ⟨s2, hrun, hstate, hcap⟩ :=
      ih { s with cap := trySubmit s.cap rid } hs hpre2
    refine ⟨s2, ?_, hstate, ?_⟩
    · show processCommands s ((c :: pre) ++ stopc :: post) = _
      rw [List.cons_append]
      unfold processCommands
      rw [if_pos hs, processCommand_run s c rid hct hrid]
      exact hrun
    · rw [hcap]
      cases stopc.run_cap with
      | none => simp [trySubmit_runCap]
      | some cap => rfl

/-- Claim C6 counterexample: a heartbeat command list that contains a
stop command but leads with an unknown command type does not stop the
scheduler — processing fails on the unknown command and the induced
scheduler state is FAILED, not STOPPED. -/
theorem heartbeat_stop_after_invalid_not_stopped :
    Command.mk "stop" none none ∈
      [Command.mk "foo" none none, Command.mk "stop" none none] ∧
    heartbeatWorkers ⟨SchedulerState.RUNNING, ⟨0, none, []⟩⟩
        [[Command.mk "foo" none none, Command.mk "stop" none none]] =
      HBOutcome.fail ("unknown command type: " ++ "foo") ∧
    schedulerStart SchedulerState.PENDING true
        [hbIterOutcome (heartbeatWorkers ⟨SchedulerState.RUNNING, ⟨0, none, []⟩⟩
          [[Command.mk "foo" none none, Command.mk "stop" none none]])] =
      ⟨SchedulerState.FAILED, true, true⟩ ∧
    SchedulerState.FAILED ≠ SchedulerState.STOPPED := by
  refine ⟨by decide, by decide, by decide, by decide⟩

/-- Claim C6 (amended): for every heartbeat command list in which every
command before the stop command is a well-formed run command, processing
transitions the scheduler to STOPPED — for any number of worker
heartbeats — and a run_cap override carried by the stop command is
applied to the run-cap configuration before further launches halt. -/
theorem heartbeat_stop_command_stops_scheduler
    (s : HBState) (pre post : List Command) (stopc : Command)
    (ws : List (List Command))
    (hs : s.schedState = SchedulerState.RUNNING)
    (hpre : ∀ c ∈ pre, c.type = "run" ∧ c.run_id ≠ none)
    (hstop : stopc.type = "stop") :
    ∃ s2 : HBState,
      heartbeatWorkers s ((pre ++ stopc :: post) :: ws) = HBOutcome.ok s2 ∧
      s2.schedState = SchedulerState.STOPPED ∧
      s2.cap.runCap = (match stopc.run_cap with
        | some cap => some cap
        | none => s.cap.runCap) := by
  obtain ⟨s2, hrun, hstate, hcap⟩ :=
    processCommands_reaches_stop stopc post hstop pre s hs hpre
  refine ⟨s2, ?_, hstate, hcap⟩
  unfold heartbeatWorkers
  rw [hrun]
  exact heartbeatWorkers_not_running s2 (by rw [hstate]; decide) ws

/-- Witness for the amended C6: two workers each polling a run command
followed by a stop carrying run_cap 7 — the scheduler stops and the
run-cap override is recorded. -/
theorem heartbeat_stop_command_stops_scheduler_witness :
    ∃ s2 : HBState,
      heartbeatWorkers ⟨SchedulerState.RUNNING, ⟨0, none, []⟩⟩
          [[Command.mk "run" (some "mock-run-id-1") none,
            Command.mk "stop" none (some 7)],
           [Command.mk "stop" none (some 7)]] = HBOutcome.ok s2 ∧
      s2.schedState = SchedulerState.STOPPED ∧
      s2.cap.runCap = some 7 :=
  heartbeat_stop_command_stops_scheduler
    ⟨SchedulerState.RUNNING, ⟨0, none, []⟩⟩
    [Command.mk "run" (some "mock-run-id-1") none] []
    (Command.mk "stop" none (some 7))
    [[Command.mk "stop" none (some 7)]]
    rfl (by decide) rfl

/-- Claim C7: a heartbeat "run" command without a run_id, and a
heartbeat command of any type other than "run" or "stop", each raise a
SchedulerError whose message names the violation, and the scheduler ends
FAILED with is_alive false. -/
theorem heartbeat_invalid_command_fails_scheduler
    (s : HBState) (c : Command) (hs : s.schedState = SchedulerState.RUNNING) :
    (c.type = "run" → c.run_id = none →
      processCommands s [c] =
        HBOutcome.fail ("No run id in agent heartbeat: " ++ c.type) ∧
      schedulerStart SchedulerState.PENDING true
          [hbIterOutcome (processCommands s [c])] =
        ⟨SchedulerState.FAILED, true, true⟩ ∧
      isAlive SchedulerState.FAILED = false) ∧
    (¬ c.type = "run" → ¬ c.type = "stop" →
      processCommands s [c] =
        HBOutcome.fail ("unknown command type: " ++ c.type) ∧
      schedulerStart SchedulerState.PENDING true
          [hbIterOutcome (processCommands s [c])] =
        ⟨SchedulerState.FAILED, true, true⟩ ∧
      isAlive SchedulerState.FAILED = false) := by
  constructor
  · intro hrun hnone
    have hp : processCommands s [c] =
        HBOutcome.fail ("No run id in agent heartbeat: " ++ c.type) := by
      unfold processCommands processCommand
      rw [if_pos hs, hrun, if_pos rfl, hnone]
    refine ⟨hp, ?_, rfl⟩
    rw [hp]
    rfl
  · intro hnr hns
    have hp : processCommands s [c] =
        HBOutcome.fail ("unknown command type: " ++ c.type) := by
      unfold processCommands processCommand
      rw [if_pos hs, if_neg hnr, if_neg hns]
    refine ⟨hp, ?_, rfl⟩
    rw [hp]
    rfl

/-- Witness for C7: the commands of the invalid-heartbeat test — type
"foo" yields an unknown-command error and a run command without run_id
yields a no-run-id error, both driving the scheduler to FAILED and not
alive. -/
theorem heartbeat_invalid_command_fails_scheduler_witness :
    (processCommands ⟨SchedulerState.RUNNING, ⟨0, none, []⟩⟩
        [Command.mk "run" none none] =
      HBOutcome.fail ("No run id in agent heartbeat: " ++ "run") ∧
     schedulerStart SchedulerState.PENDING true
        [hbIterOutcome (processCommands ⟨SchedulerState.RUNNING, ⟨0, none, []⟩⟩
          [Command.mk "run" none none])] =
      ⟨SchedulerState.FAILED, true, true⟩ ∧
     isAlive SchedulerState.FAILED = false) ∧
    (processCommands ⟨SchedulerState.RUNNING, ⟨0, none, []⟩⟩
        [Command.mk "foo" none none] =
      HBOutcome.fail ("unknown command type: " ++ "foo") ∧
     schedulerStart SchedulerState.PENDING true
        [hbIterOutcome (processCommands ⟨SchedulerState.RUNNING, ⟨0, none, []⟩⟩
          [Command.mk "foo" none none])] =
      ⟨SchedulerState.FAILED, true, true⟩ ∧
     isAlive SchedulerState.FAILED = false) :=
  ⟨(heartbeat_invalid_command_fails_scheduler
      ⟨SchedulerState.RUNNING, ⟨0, none, []⟩⟩
      (Command.mk "run" none none) rfl).1 rfl rfl,
   (heartbeat_invalid_command_fails_scheduler
      ⟨SchedulerState.RUNNING, ⟨0, none, []⟩⟩
      (Command.mk "foo" none none) rfl).2 (by decide) (by decide)⟩

/-! ### Upload retry lemmas -/

theorem uploadAttempts_positions_zero :
    ∀ script : List UploadOutcome, ∀ p ∈ (uploadAttempts 0 script).2, p = 0 := by
  intro script
  induction script with
  | nil =>
    intro p hp
    simp [uploadAttempts] at hp
  | cons o rest ih =>
    intro p hp
    unfold uploadAttempts at hp
    cases h : classifyFailure o with
    | none =>
      rw [h] at hp
      simpa using hp
    | some f =>
      cases f with
      | transient =>
        rw [h] at hp
        rcases List.mem_cons.mp hp with h0 | h0
        · exact h0
        · exact ih p h0
      | httpStatus code =>
        rw [h] at hp
        simpa using hp

/-- Claim C9: for the backend file-upload primitive, network errors,
timeouts and 5xx responses classify as transient (retryable) failures;
a non-transient 4xx response surfaces directly to the caller with no
retry attempt; and the file read position is rewound to 0 before every
attempt after a failure. -/
theorem upload_file_retry_classification_and_rewind :
    (classifyFailure UploadOutcome.netError = some UploadFailure.transient ∧
     classifyFailure UploadOutcome.timeout = some UploadFailure.transient) ∧
    (∀ c : Nat, 500 ≤ c →
      classifyFailure (UploadOutcome.status c) = some UploadFailure.transient) ∧
    (∀ c : Nat, 400 ≤ c → c < 500 → ∀ rest : List UploadOutcome,
      upload_file (UploadOutcome.status c :: rest) =
        (Except.error (UploadFailure.httpStatus c), [0])) ∧
    (∀ script : List UploadOutcome, ∀ p ∈ (upload_file script).2, p = 0) := by
  refine ⟨⟨rfl, rfl⟩, ?_, ?_, ?_⟩
  · intro c h5
    simp only [classifyFailure]
    rw [if_pos h5]
  · intro c h4 h5 rest
    have hc : classifyFailure (UploadOutcome.status c) =
        some (UploadFailure.httpStatus c) := by
      simp only [classifyFailure]
      rw [if_neg (by omega)]
    unfold upload_file uploadAttempts
    rw [hc]
  · exact uploadAttempts_positions_zero

/-- Witness for C9: a 502 then a network error then success retries
twice with the read position rewound to 0 on every attempt, and a bare
404 surfaces directly after a single attempt. -/
theorem upload_file_retry_classification_and_rewind_witness :
    classifyFailure (UploadOutcome.status 502) = some UploadFailure.transient ∧
    upload_file [UploadOutcome.status 404] =
      (Except.error (UploadFailure.httpStatus 404), [0]) ∧
    (∀ p ∈ (upload_file [UploadOutcome.status 502, UploadOutcome.netError,
        UploadOutcome.success]).2, p = 0) :=
  ⟨upload_file_retry_classification_and_rewind.2.1 502 (by decide),
   upload_file_retry_classification_and_rewind.2.2.1 404 (by decide) (by decide) [],
   upload_file_retry_classification_and_rewind.2.2.2
     [UploadOutcome.status 502, UploadOutcome.netError, UploadOutcome.success]⟩

/-- Claim C8 counterexample: a trial with one reported metric whose
poll returns that same single metric — and hence no subsequent
metrics — is not completed: the poll emits no study events (in
particular no COMPLETE) and does not report the trial finished. -/
theorem poll_run_stale_metrics_not_completed :
    1 ≤ (OptunaRunModel.mk 1 [(0, 7)]).num_metrics ∧
    List.drop (OptunaRunModel.mk 1 [(0, 7)]).num_metrics [(7 : Int)] = [] ∧
    (pollRun (fun _ => false) [(7 : Int)] (OptunaRunModel.mk 1 [(0, 7)])).1 = [] ∧
    (pollRun (fun _ => false) [(7 : Int)] (OptunaRunModel.mk 1 [(0, 7)])).2.2 = false := by
  refine ⟨by decide, by decide, ?_, ?_⟩ <;> rfl

/-- Claim C8 (amended): a trial that has reported at least one metric
and whose metric poll returns an empty metric list is told COMPLETE to
the study with the intermediate value recorded at its last reported
step as the final value, and the poll reports the trial finished. -/
theorem poll_run_empty_poll_completes
    (sp : List (Nat × Int) → Bool) (orun : OptunaRunModel) (v : Int)
    (h : 1 ≤ orun.num_metrics)
    (hv : orun.intermediate_values.lookup (orun.num_metrics - 1) = some v) :
    pollRun sp [] orun =
      ([StudyEvent.tellComplete (some v)],
       ⟨orun.num_metrics, orun.intermediate_values⟩, true) := by
  have h0 : ¬ orun.num_metrics = 0 := by omega
  unfold pollRun
  simp only [List.drop_nil, pollLoop, List.length_nil, ne_eq, if_neg h0]
  simp [hv, h0]

/-- Witness for C8 (amended): a trial with two reported metrics and an
empty poll completes with the value reported at its last step. -/
theorem poll_run_empty_poll_completes_witness :
    pollRun (fun _ => false) [] ⟨2, [(0, 3), (1, 9)]⟩ =
      ([StudyEvent.tellComplete (some 9)], ⟨2, [(0, 3), (1, 9)]⟩, true) :=
  poll_run_empty_poll_completes (fun _ => false) ⟨2, [(0, 3), (1, 9)]⟩ 9
    (by decide) (by decide)

/-- Claim C10: a SweepRun dequeued from the optuna scheduler's internal
job queue whose state is DEAD or UNKNOWN is never submitted to the
launch queue — the iteration dispatch produces no launch request. -/
theorem optuna_run_dispatch_skips_dead_unknown (srun : SweepRun)
    (h : srun.state = RunState.DEAD ∨ srun.state = RunState.UNKNOWN) :
    optunaRunDispatch srun = none := by
  unfold optunaRunDispatch
  rw [if_pos h]

/-- Witness for C10: a dequeued DEAD run yields no launch request. -/
theorem optuna_run_dispatch_skips_dead_unknown_witness :
    optunaRunDispatch ⟨"pruned-run", RunState.DEAD, 0, [("lr", 1)], false⟩ = none :=
  optuna_run_dispatch_skips_dead_unknown
    ⟨"pruned-run", RunState.DEAD, 0, [("lr", 1)], false⟩ (Or.inl rfl)
